import Mathlib

/-!
Shallow embedding of the doris-webhook ingestion service (src/main.go).

The repository's main.go contains two variants of the service: a plain
net/http variant (lines 1-461: `writeToDoris`, `videoHandler`,
`validateRequest`, `setCORSHeaders`, `toVideoData`) and a gin-based variant
(lines 462-932: `WriteToDoris`, `DorisClient`, `setupRouter`, the
gin `videoHandler`).  Both are embedded here; functions shared verbatim by
the two variants (`getEnv`, `maskPassword`, `loadConfig`,
`StreamLoadResponse`, the redirect policy) are embedded once.

Modelling conventions:
  * the process environment is a partial map `String → Option String`
    (`none` = unset); Go's `os.Getenv` is `osGetenv`, which returns `""`
    for an unset variable;
  * byte strings handled by Go as `[]byte`/`string` bytes are `List Nat`
    where byte-level operations matter (`maskPassword`, base64 input,
    request bodies), and Lean `String` where only character content
    matters (JSON lines, headers, URLs);
  * the network is an oracle `Request → HttpOutcome` and JSON decoding of
    the load engine's acknowledgment is an oracle
    `String → Option StreamLoadResponse`, so the response-classification
    logic of `writeToDoris`/`WriteToDoris` is embedded exactly while I/O
    stays abstract;
  * `time.Now()` is a `GoTime` parameter threaded to the handler.
-/

namespace DorisWebhook

/-- The `videoTable` constant from main.go. -/
def videoTable : String := "video_metrics"

/-- Embeds `os.Getenv`: an unset variable reads as the empty string. -/
def osGetenv (env : String → Option String) (key : String) : String :=
  (env key).getD ""

/-- Embeds `getEnv` (identical in both variants):
`if v := os.Getenv(key); v != "" { return v }; return defaultValue`. -/
def getEnv (env : String → Option String) (key defaultValue : String) : String :=
  let v := osGetenv env key
  if v ≠ "" then v else defaultValue

/-- The `Config` struct from main.go. -/
structure Config where
  BEHTTP : String
  DB : String
  User : String
  Passwd : String
deriving Repr, DecidableEq

/-- Embeds `loadConfig` (gin variant, lines 575-598; the first variant
performs the same checks in the same order): require `DORIS_BE_HTTP`,
auto-prefix `http://`, default database/user, require `DORIS_PASSWORD`. -/
def loadConfig (env : String → Option String) : Except String Config :=
  let beHTTPAddr := getEnv env "DORIS_BE_HTTP" ""
  if beHTTPAddr = "" then
    .error "DORIS_BE_HTTP 必须设置"
  else
    let beHTTPAddr :=
      if ¬ beHTTPAddr.startsWith "http://" ∧ ¬ beHTTPAddr.startsWith "https://" then
        "http://" ++ beHTTPAddr
      else beHTTPAddr
    let cfg : Config :=
      { BEHTTP := beHTTPAddr
        DB := getEnv env "DORIS_DATABASE" "video"
        User := getEnv env "DORIS_USER" "devops"
        Passwd := getEnv env "DORIS_PASSWORD" "" }
    if cfg.Passwd = "" then
      .error "DORIS_PASSWORD 未设置"
    else
      .ok cfg

/-- Embeds the configuration step of `main`: on a `loadConfig` error the
process calls `os.Exit(1)`; `some 1` records that exit, `none` means the
process continues with the loaded config. -/
def startupExitCode (env : String → Option String) : Option Nat :=
  match loadConfig env with
  | .error _ => some 1
  | .ok _ => none

/-- The byte value of `'*'`, for `maskPassword`. -/
def starByte : Nat := 42

/-- Embeds `maskPassword` (identical in both variants), over the
password's bytes: `len(pwd) <= 4` gives `"****"`, otherwise the first two
and last two bytes surround `"****"`. -/
def maskPassword (pwd : List Nat) : List Nat :=
  if pwd.length ≤ 4 then
    [starByte, starByte, starByte, starByte]
  else
    pwd.take 2 ++ [starByte, starByte, starByte, starByte]
      ++ pwd.drop (pwd.length - 2)

/-- Standard base64 alphabet used by Go's `base64.StdEncoding`. -/
def base64Alphabet : List Char :=
  "ABCDEFGHIJKLMNOPQRSTUVWXYZabcdefghijklmnopqrstuvwxyz0123456789+/".toList

/-- The base64 digit for a 6-bit value. -/
def b64Char (n : Nat) : Char := base64Alphabet.getD n 'A'

/-- Embeds `base64.StdEncoding.EncodeToString` over a byte list:
3 input bytes become 4 alphabet characters, with `=` padding. -/
def base64Encode : List Nat → String
  | [] => ""
  | [a] =>
    ⟨[b64Char (a / 4), b64Char (a % 4 * 16), '=', '=']⟩
  | [a, b] =>
    ⟨[b64Char (a / 4), b64Char (a % 4 * 16 + b / 16), b64Char (b % 16 * 4), '=']⟩
  | a :: b :: c :: rest =>
    (⟨[b64Char (a / 4), b64Char (a % 4 * 16 + b / 16),
       b64Char (b % 16 * 4 + c / 64), b64Char (c % 64)]⟩ : String)
      ++ base64Encode rest

/-- UTF-8 encoding of one character, as Go strings store their bytes. -/
def charUTF8 (c : Char) : List Nat :=
  let n := c.toNat
  if n < 128 then [n]
  else if n < 2048 then [192 + n / 64, 128 + n % 64]
  else if n < 65536 then [224 + n / 4096, 128 + n / 64 % 64, 128 + n % 64]
  else [240 + n / 262144, 128 + n / 4096 % 64, 128 + n / 64 % 64, 128 + n % 64]

/-- The bytes of a Go string (UTF-8). -/
def strBytes (s : String) : List Nat :=
  (s.data.map charUTF8).flatten

/-- An outbound HTTP request as built by `writeToDoris`/`WriteToDoris`:
method, URL, headers in insertion order, the explicit `ContentLength`
field, and the body bytes. -/
structure Request where
  method : String
  url : String
  headers : List (String × String)
  contentLength : Nat
  body : List Nat
deriving Repr, DecidableEq

/-- Embeds `http.Header.Set`: replace the value under the key, or append
a new pair. -/
def setHeader (hs : List (String × String)) (k v : String) : List (String × String) :=
  if hs.any (fun p => p.1 == k) then
    hs.map (fun p => if p.1 == k then (k, v) else p)
  else
    hs ++ [(k, v)]

/-- Header lookup. -/
def headerGet (hs : List (String × String)) (k : String) : Option String :=
  (hs.find? (fun p => p.1 == k)).map (fun p => p.2)

/-- The `StreamLoadResponse` struct (identical in both variants). -/
structure StreamLoadResponse where
  TxnID : Int
  Label : String
  Status : String
  Message : String
  NumberTotalRows : Int
  NumberLoadedRows : Int
  NumberFilteredRows : Int
  NumberUnselectedRows : Int
  LoadBytes : Int
  LoadTimeMs : Int
  BeginTxnTimeMs : Int
  StreamLoadPutTimeMs : Int
  ReadDataTimeMs : Int
  WriteDataTimeMs : Int
  CommitAndPublishTimeMs : Int
  ErrorURL : String
deriving Repr, DecidableEq

/-- What `dorisClient.Do(req)` followed by `io.ReadAll(resp.Body)` can
produce: a transport failure, a body-read failure, or a status code with
a response body. -/
inductive HttpOutcome where
  | transportError (msg : String)
  | readBodyError (msg : String)
  | response (statusCode : Nat) (body : String)
deriving Repr, DecidableEq

/-- Request construction of `writeToDoris` (first variant, lines 341-365):
URL `fmt.Sprintf("%s/api/%s/%s/_stream_load", BEHTTP, DB, videoTable)`,
`ContentLength = len(data)`, and the `Header.Set` calls in source order.
The fresh `uuid.New().String()` is the `label` parameter. -/
def buildStreamLoadRequest (cfg : Config) (label : String) (data : List Nat) : Request :=
  let url := cfg.BEHTTP ++ "/api/" ++ cfg.DB ++ "/" ++ videoTable ++ "/_stream_load"
  let auth := base64Encode (strBytes (cfg.User ++ ":" ++ cfg.Passwd))
  let h := setHeader [] "Authorization" ("Basic " ++ auth)
  let h := setHeader h "Content-Type" "application/json"
  let h := setHeader h "Expect" "100-continue"
  let h := setHeader h "label" label
  let h := setHeader h "format" "json"
  let h := setHeader h "read_json_by_line" "true"
  let h := setHeader h "columns" "project,event,user_agent"
  { method := "PUT", url := url, headers := h,
    contentLength := data.length, body := data }

/-- Classification of the load engine's answer, shared verbatim by
`writeToDoris` (lines 367-415) and `WriteToDoris` (lines 701-742):
transport error, body-read error, non-200 status, unparseable 200 body,
parsed `Status != "Success"` each produce an error; otherwise success. -/
def classifyLoadOutcome (parse : String → Option StreamLoadResponse)
    (outcome : HttpOutcome) : Except String Unit :=
  match outcome with
  | .transportError msg => .error ("doris 连接失败: " ++ msg)
  | .readBodyError msg => .error ("读取 Doris 响应体失败: " ++ msg)
  | .response statusCode body =>
    if statusCode ≠ 200 then
      .error ("doris 返回错误 [" ++ toString statusCode ++ "]: " ++ body)
    else
      match parse body with
      | none => .error ("无法解析 Doris 响应: " ++ body)
      | some loadResp =>
        if loadResp.Status ≠ "Success" then
          .error ("doris stream load 失败: Status=" ++ loadResp.Status
            ++ ", Message=" ++ loadResp.Message
            ++ ", ErrorURL=" ++ loadResp.ErrorURL)
        else
          .ok ()

/-- Embeds `writeToDoris` (first variant): build the stream-load request,
send it through the network oracle `net`, classify the answer.  `parse`
is the `json.Unmarshal` oracle for `StreamLoadResponse`. -/
def writeToDoris (cfg : Config) (label : String) (data : List Nat)
    (net : Request → HttpOutcome)
    (parse : String → Option StreamLoadResponse) : Except String Unit :=
  classifyLoadOutcome parse (net (buildStreamLoadRequest cfg label data))

/-- The `DorisClient` struct of the gin variant with its derived fields. -/
structure DorisClient where
  config : Config
  streamURL : String
  authHeader : String
deriving Repr, DecidableEq

/-- Embeds `NewDorisClient` + `init` (lines 541-572): the URL and the
basic-auth header are computed once from the config. -/
def NewDorisClient (cfg : Config) : DorisClient :=
  { config := cfg
    streamURL := cfg.BEHTTP ++ "/api/" ++ cfg.DB ++ "/" ++ videoTable ++ "/_stream_load"
    authHeader := "Basic " ++ base64Encode (strBytes (cfg.User ++ ":" ++ cfg.Passwd)) }

/-- Request construction of `WriteToDoris` (gin variant, lines 684-699);
its `columns` header additionally lists `event_time`. -/
def buildStreamLoadRequestV2 (dc : DorisClient) (label : String) (data : List Nat) : Request :=
  let h := setHeader [] "Authorization" dc.authHeader
  let h := setHeader h "Content-Type" "application/json"
  let h := setHeader h "Expect" "100-continue"
  let h := setHeader h "label" label
  let h := setHeader h "format" "json"
  let h := setHeader h "read_json_by_line" "true"
  let h := setHeader h "columns" "project,event,user_agent,event_time"
  { method := "PUT", url := dc.streamURL, headers := h,
    contentLength := data.length, body := data }

/-- Embeds `WriteToDoris` (gin variant): same classification logic as
`writeToDoris` after building the request from the client's cached
URL and auth header. -/
def WriteToDoris (dc : DorisClient) (label : String) (data : List Nat)
    (net : Request → HttpOutcome)
    (parse : String → Option StreamLoadResponse) : Except String Unit :=
  classifyLoadOutcome parse (net (buildStreamLoadRequestV2 dc label data))

/-- The `maxRedirects` constant (gin variant; the first variant writes the
literal 10). -/
def maxRedirects : Nat := 10

/-- Embeds the `CheckRedirect` closure (lines 59-65 and 554-559): given
the requests already made in the chain, refuse when there are
`maxRedirects` or more. -/
def checkRedirect (via : List Request) : Except String Unit :=
  if via.length ≥ maxRedirects then .error "重定向次数过多" else .ok ()

/-- A fixed request value, standing for the entries of the `via` chain
whose content `CheckRedirect` never inspects. -/
def dummyRequest : Request :=
  { method := "PUT", url := "", headers := [], contentLength := 0, body := [] }

/-- Models `net/http.Client`'s redirect loop driven by the repository's
`checkRedirect` policy: the server answers `n` consecutive redirects and
then a final response; before following each redirect the policy is
consulted with the list of requests already sent (`sent` many, starting
from the one initial request).  Returns the total number of requests sent
on success, the policy's error otherwise. -/
def followRedirects : (n : Nat) → (sent : Nat) → Except String Nat
  | 0, sent => .ok sent
  | m + 1, sent =>
    match checkRedirect (List.replicate sent dummyRequest) with
    | .error e => .error e
    | .ok _ => followRedirects m (sent + 1)

/-- One submission against a server that issues a chain of `n` redirects:
the initial request is sent, then the redirect loop runs. -/
def doRequestChain (n : Nat) : Except String Nat :=
  followRedirects n 1

/-- The `VideoRequest` struct (both variants; the gin variant marks
`project` and `event` with `binding:"required"`). -/
structure VideoRequest where
  project : String
  event : String
  userAgent : String
deriving Repr, DecidableEq

/-- The `VideoData` struct of the first variant (lines 38-43): three JSON fields. -/
structure VideoDataV1 where
  project : String
  event : String
  userAgent : String
deriving Repr, DecidableEq

/-- The `VideoData` struct of the gin variant (lines 516-522): adds
`event_time,omitempty`. -/
structure VideoData where
  project : String
  event : String
  userAgent : String
  eventTime : String
deriving Repr, DecidableEq

/-- Embeds `toVideoData` (first variant, lines 151-157). -/
def toVideoData (req : VideoRequest) : VideoDataV1 :=
  { project := req.project, event := req.event, userAgent := req.userAgent }

/-- Escaping of one character by Go's `encoding/json` encoder (default
HTML-escaping encoder, as `json.Marshal` uses). -/
def goEscapeChar (c : Char) : List Char :=
  if c = '"' then ['\\', '"']
  else if c = '\\' then ['\\', '\\']
  else if c = '\n' then ['\\', 'n']
  else if c = '\r' then ['\\', 'r']
  else if c = '\t' then ['\\', 't']
  else if c.toNat < 32 then
    ['\\', 'u', '0', '0', Nat.digitChar (c.toNat / 16), Nat.digitChar (c.toNat % 16)]
  else if c = '<' then ['\\', 'u', '0', '0', '3', 'c']
  else if c = '>' then ['\\', 'u', '0', '0', '3', 'e']
  else if c = '&' then ['\\', 'u', '0', '0', '2', '6']
  else if c.toNat = 8232 then ['\\', 'u', '2', '0', '2', '8']
  else if c.toNat = 8233 then ['\\', 'u', '2', '0', '2', '9']
  else [c]

/-- A JSON string literal as Go's encoder writes it. -/
def goQuote (s : String) : String :=
  "\"" ++ (⟨(s.data.map goEscapeChar).flatten⟩ : String) ++ "\""

/-- Embeds `json.Marshal` on the first variant's `VideoData`: the fields
in struct order under their `json:` tag names. -/
def marshalVideoDataV1 (d : VideoDataV1) : String :=
  "\x7b\"project\":" ++ goQuote d.project
    ++ ",\"event\":" ++ goQuote d.event
    ++ ",\"user_agent\":" ++ goQuote d.userAgent ++ "\x7d"

/-- Embeds `json.Marshal` on the gin variant's `VideoData`; `event_time`
carries `omitempty`, so the empty string drops the field. -/
def marshalVideoData (d : VideoData) : String :=
  "\x7b\"project\":" ++ goQuote d.project
    ++ ",\"event\":" ++ goQuote d.event
    ++ ",\"user_agent\":" ++ goQuote d.userAgent
    ++ (if d.eventTime = "" then "" else ",\"event_time\":" ++ goQuote d.eventTime)
    ++ "\x7d"

/-- A wall-clock instant as Go's `time.Time` presents it to the format
`"2006-01-02 15:04:05"`. -/
structure GoTime where
  year : Nat
  month : Nat
  day : Nat
  hour : Nat
  minute : Nat
  second : Nat
deriving Repr, DecidableEq

/-- Two zero-padded decimal digits (`"01"`-style Go format verbs; for the
in-range values produced by `time.Now()` every component is below 100,
where this agrees with Go). -/
def pad2 (n : Nat) : String :=
  ⟨[Nat.digitChar (n / 10 % 10), Nat.digitChar (n % 10)]⟩

/-- Four zero-padded decimal digits (the `"2006"` year verb; agrees with
Go for years up to 9999). -/
def pad4 (n : Nat) : String :=
  ⟨[Nat.digitChar (n / 1000 % 10), Nat.digitChar (n / 100 % 10),
    Nat.digitChar (n / 10 % 10), Nat.digitChar (n % 10)]⟩

/-- Embeds `t.Format("2006-01-02 15:04:05")`. -/
def formatDateTime (t : GoTime) : String :=
  pad4 t.year ++ "-" ++ pad2 t.month ++ "-" ++ pad2 t.day ++ " "
    ++ pad2 t.hour ++ ":" ++ pad2 t.minute ++ ":" ++ pad2 t.second

/-- Shape check for `YYYY-MM-DD HH:MM:SS`: 19 characters, digits and the three
separators in their places. -/
def isWellFormedTimestamp (s : String) : Bool :=
  match s.data with
  | [y1, y2, y3, y4, c1, m1, m2, c2, d1, d2, c3, h1, h2, c4, n1, n2, c5, s1, s2] =>
    [y1, y2, y3, y4, m1, m2, d1, d2, h1, h2, n1, n2, s1, s2].all Char.isDigit
      && c1 == '-' && c2 == '-' && c3 == ' ' && c4 == ':' && c5 == ':'
  | _ => false

/-- What a request handler produces, as far as these claims observe it:
the HTTP status written back, and the payload submitted to the load
client (`none` when the load client was never invoked). -/
structure HandlerOutcome where
  status : Nat
  submitted : Option String
deriving Repr, DecidableEq

/-- Embeds `videoHandler` of the first variant (lines 257-317), after
the body has been read: `decoded` is the `json.Decode` oracle's result,
`dorisResult` the outcome `writeToDoris` would return on the submitted
payload.  Decode failure → 400; empty `project` or `event` → 400, both
without submitting; otherwise marshal + newline is submitted and the
load outcome maps to 502 / 202. -/
def videoHandlerV1 (decoded : Option VideoRequest)
    (dorisResult : Except String Unit) : HandlerOutcome :=
  match decoded with
  | none => { status := 400, submitted := none }
  | some req =>
    if req.project = "" ∨ req.event = "" then
      { status := 400, submitted := none }
    else
      let jsonData := marshalVideoDataV1 (toVideoData req) ++ "\n"
      match dorisResult with
      | .error _ => { status := 502, submitted := some jsonData }
      | .ok _ => { status := 202, submitted := some jsonData }

/-- Embeds gin's `ShouldBindJSON` on `VideoRequest` with the struct's
`binding:"required"` tags: decoding failure or a zero-valued (empty)
required field is a binding error. -/
def shouldBindJSON (decoded : Option VideoRequest) : Except String VideoRequest :=
  match decoded with
  | none => .error "invalid request body"
  | some req =>
    if req.project = "" then .error "Project is required"
    else if req.event = "" then .error "Event is required"
    else .ok req

/-- Embeds `videoHandler` of the gin variant (lines 820-864): bind, stamp
`event_time` with `time.Now().Format("2006-01-02 15:04:05")`, marshal,
append a newline, submit; binding failure → 400 without submitting, load
failure → 502, success → 200. -/
def videoHandlerV2 (now : GoTime) (decoded : Option VideoRequest)
    (dorisResult : Except String Unit) : HandlerOutcome :=
  match shouldBindJSON decoded with
  | .error _ => { status := 400, submitted := none }
  | .ok req =>
    let eventTime := formatDateTime now
    let jsonData := marshalVideoData
      { project := req.project, event := req.event,
        userAgent := req.userAgent, eventTime := eventTime } ++ "\n"
    match dorisResult with
    | .error _ => { status := 502, submitted := some jsonData }
    | .ok _ => { status := 200, submitted := some jsonData }

/-- An inbound HTTP request, as far as the middleware inspects it. -/
structure HttpRequest where
  method : String
  contentType : String
  body : String
deriving Repr, DecidableEq

/-- Embeds `validateRequest` (first variant, lines 219-254): OPTIONS
passes through (already answered by CORS); non-POST → 405; content type
other than `application/json` → 415; body failing `json.Valid`
(the oracle `jsonValid`) → 400; otherwise the inner handler runs. -/
def validateRequest (jsonValid : String → Bool)
    (next : HttpRequest → HandlerOutcome) (r : HttpRequest) : HandlerOutcome :=
  if r.method = "OPTIONS" then next r
  else if r.method ≠ "POST" then { status := 405, submitted := none }
  else if r.contentType ≠ "application/json" then { status := 415, submitted := none }
  else if ¬ jsonValid r.body then { status := 400, submitted := none }
  else next r

/-- Embeds `corsMiddleware` (lines 203-216): answer OPTIONS preflight
with 204 and no handler run; otherwise pass through. -/
def corsMiddleware (next : HttpRequest → HandlerOutcome) (r : HttpRequest) : HandlerOutcome :=
  if r.method = "OPTIONS" then { status := 204, submitted := none }
  else next r

/-- The `/video` route of the first variant as wired in `main`:
`corsMiddleware(validateRequest(videoHandler))`, with the JSON-validity
and decode oracles and the load outcome as parameters. -/
def videoRoute (jsonValid : String → Bool)
    (decode : String → Option VideoRequest)
    (dorisResult : Except String Unit) (r : HttpRequest) : HandlerOutcome :=
  corsMiddleware
    (validateRequest jsonValid (fun rq => videoHandlerV1 (decode rq.body) dorisResult)) r

/-- Embeds `setCORSHeaders` (first variant, lines 160-200) as the list of
headers it sets, in source order, reading its policy from the
environment.  `origin` is the request's `Origin` header (`""` when
absent). -/
def setCORSHeaders (env : String → Option String) (origin : String) :
    List (String × String) :=
  let allowCredentials := getEnv env "CORS_ALLOW_CREDENTIALS" "false" = "true"
  let allowedOrigin := getEnv env "CORS_ALLOWED_ORIGIN" "*"
  let h : List (String × String) := []
  let h :=
    if allowCredentials then
      if allowedOrigin = "*" then
        if origin ≠ "" then setHeader h "Access-Control-Allow-Origin" origin else h
      else if origin = allowedOrigin then
        setHeader h "Access-Control-Allow-Origin" allowedOrigin
      else h
    else
      if allowedOrigin = "*" ∨ origin = allowedOrigin then
        setHeader h "Access-Control-Allow-Origin" allowedOrigin
      else h
  let h := setHeader h "Access-Control-Allow-Methods"
    (getEnv env "CORS_ALLOWED_METHODS" "GET, POST, OPTIONS")
  let h := setHeader h "Access-Control-Allow-Headers"
    (getEnv env "CORS_ALLOWED_HEADERS" "Content-Type, Authorization")
  let h :=
    if allowCredentials then setHeader h "Access-Control-Allow-Credentials" "true" else h
  setHeader h "Access-Control-Max-Age" (getEnv env "CORS_MAX_AGE" "3600")

/-- A concrete environment that enables credentialed CORS and leaves the
allowed origin at its wildcard default. -/
def credEnv : String → Option String :=
  fun k => if k = "CORS_ALLOW_CREDENTIALS" then some "true" else none

/-! ## Theorems -/

/-- Digit characters from `Nat.digitChar` on values reduced mod 10. -/
theorem digitChar_mod10_isDigit (n : Nat) : (Nat.digitChar (n % 10)).isDigit = true := by
  have h : n % 10 < 10 := Nat.mod_lt _ (by norm_num)
  set d := n % 10 with hd
  interval_cases d <;> rfl

/-- The stamped `event_time` always has the `YYYY-MM-DD HH:MM:SS` shape. -/
theorem formatDateTime_wellFormed (t : GoTime) :
    isWellFormedTimestamp (formatDateTime t) = true := by
  have hmk : formatDateTime t =
      ⟨[Nat.digitChar (t.year / 1000 % 10), Nat.digitChar (t.year / 100 % 10),
        Nat.digitChar (t.year / 10 % 10), Nat.digitChar (t.year % 10), '-',
        Nat.digitChar (t.month / 10 % 10), Nat.digitChar (t.month % 10), '-',
        Nat.digitChar (t.day / 10 % 10), Nat.digitChar (t.day % 10), ' ',
        Nat.digitChar (t.hour / 10 % 10), Nat.digitChar (t.hour % 10), ':',
        Nat.digitChar (t.minute / 10 % 10), Nat.digitChar (t.minute % 10), ':',
        Nat.digitChar (t.second / 10 % 10), Nat.digitChar (t.second % 10)]⟩ := rfl
  rw [hmk]
  simp [isWellFormedTimestamp, digitChar_mod10_isDigit]

/-- C9 — counterexample.  The claim says the logged value "never equals
the password in clear text", but a password that is itself `"****"`
(bytes `[42, 42, 42, 42]`) is logged as exactly itself. -/
theorem c9_mask_equals_password_counterexample :
    maskPassword (strBytes "****") = strBytes "****" := by decide

/-- C9 (amended) — `maskPassword` logs passwords of length at most 4
entirely masked; two equal-length passwords agreeing on their first two
and last two bytes are logged identically (so at most those bytes are
revealed); and the logged form equals the password in clear text only
when the password itself already has the masked shape. -/
theorem c9_maskPassword_reveals_at_most_ends (p q : List Nat) :
    (p.length ≤ 4 → maskPassword p = [starByte, starByte, starByte, starByte]) ∧
    (p.length = q.length → p.take 2 = q.take 2 →
      p.drop (p.length - 2) = q.drop (q.length - 2) →
      maskPassword p = maskPassword q) ∧
    (maskPassword p = p →
      p = [starByte, starByte, starByte, starByte] ∨
      p = p.take 2 ++ [starByte, starByte, starByte, starByte]
            ++ p.drop (p.length - 2)) := by
  refine ⟨fun h => by simp [maskPassword, h], ?_, ?_⟩
  · intro hlen htake hdrop
    by_cases h4 : p.length ≤ 4
    · have hq4 : q.length ≤ 4 := hlen ▸ h4
      simp [maskPassword, h4, hq4]
    · have hq4 : ¬ q.length ≤ 4 := fun hc => h4 (hlen ▸ hc)
      simp only [maskPassword, h4, hq4, if_false]
      rw [htake, hdrop]
  · intro h
    by_cases h4 : p.length ≤ 4
    · simp only [maskPassword, h4, if_true] at h
      exact Or.inl h.symm
    · simp only [maskPassword, h4, if_false] at h
      exact Or.inr h.symm

/-- C9 — witness: a short password is fully masked, and two passwords
sharing length, first two and last two bytes are logged identically. -/
theorem c9_maskPassword_witness :
    maskPassword (strBytes "abc") = [starByte, starByte, starByte, starByte] ∧
    maskPassword (strBytes "secret123") = maskPassword (strBytes "seXYZAB23") := by
  constructor
  · exact (c9_maskPassword_reveals_at_most_ends (strBytes "abc") []).1 (by decide)
  · exact (c9_maskPassword_reveals_at_most_ends
      (strBytes "secret123") (strBytes "seXYZAB23")).2.1
      (by decide) (by decide) (by decide)

/-- C10 — an environment variable set to the empty string is treated like
an unset one: `getEnv` yields the default, and `loadConfig` fails (with
the process exiting 1) when `DORIS_PASSWORD` or `DORIS_BE_HTTP` is empty
or absent. -/
theorem c10_empty_env_equals_unset (env : String → Option String) (key d : String) :
    ((env key = some "" ∨ env key = none) → getEnv env key d = d) ∧
    ((env "DORIS_PASSWORD" = some "" ∨ env "DORIS_PASSWORD" = none) →
      (∃ msg, loadConfig env = .error msg) ∧ startupExitCode env = some 1) ∧
    ((env "DORIS_BE_HTTP" = some "" ∨ env "DORIS_BE_HTTP" = none) →
      (∃ msg, loadConfig env = .error msg) ∧ startupExitCode env = some 1) := by
  have hget : ∀ k dv, (env k = some "" ∨ env k = none) → getEnv env k dv = dv := by
    intro k dv h
    rcases h with h | h <;> simp [getEnv, osGetenv, h]
  refine ⟨hget key d, ?_, ?_⟩
  · intro h
    have hpw : getEnv env "DORIS_PASSWORD" "" = "" := hget _ _ h
    have herr : ∃ msg, loadConfig env = .error msg := by
      by_cases hbe : getEnv env "DORIS_BE_HTTP" "" = ""
      · exact ⟨"DORIS_BE_HTTP 必须设置", by simp [loadConfig, hbe]⟩
      · exact ⟨"DORIS_PASSWORD 未设置", by simp [loadConfig, hbe, hpw]⟩
    obtain ⟨msg, hmsg⟩ := herr
    exact ⟨⟨msg, hmsg⟩, by simp [startupExitCode, hmsg]⟩
  · intro h
    have hbe : getEnv env "DORIS_BE_HTTP" "" = "" := hget _ _ h
    have hmsg : loadConfig env = .error "DORIS_BE_HTTP 必须设置" := by
      simp [loadConfig, hbe]
    exact ⟨⟨_, hmsg⟩, by simp [startupExitCode, hmsg]⟩

/-- C10 — witness: with `DORIS_BE_HTTP` present but `DORIS_PASSWORD` set
to the empty string, configuration loading fails and the process exits 1;
an empty `DORIS_DATABASE` falls back to its default. -/
theorem c10_empty_env_witness :
    ((∃ msg, loadConfig
        (fun k => if k = "DORIS_BE_HTTP" then some "10.0.0.1:8040"
                  else if k = "DORIS_PASSWORD" then some "" else none)
      = .error msg) ∧
     startupExitCode
        (fun k => if k = "DORIS_BE_HTTP" then some "10.0.0.1:8040"
                  else if k = "DORIS_PASSWORD" then some "" else none)
      = some 1) ∧
    getEnv (fun _ => some "") "DORIS_DATABASE" "video" = "video" := by
  constructor
  · exact (c10_empty_env_equals_unset
      (fun k => if k = "DORIS_BE_HTTP" then some "10.0.0.1:8040"
                else if k = "DORIS_PASSWORD" then some "" else none)
      "DORIS_PASSWORD" "").2.1 (Or.inl (by decide))
  · exact (c10_empty_env_equals_unset (fun _ => some "") "DORIS_DATABASE" "video").1
      (Or.inl rfl)

/-- The classification shared by both submit functions succeeds exactly on
a 200 response whose body parses with `Status = "Success"`. -/
theorem classifyLoadOutcome_ok_iff (parse : String → Option StreamLoadResponse)
    (o : HttpOutcome) :
    classifyLoadOutcome parse o = .ok () ↔
      ∃ body resp, o = .response 200 body ∧ parse body = some resp ∧
        resp.Status = "Success" := by
  cases o with
  | transportError m => simp [classifyLoadOutcome]
  | readBodyError m => simp [classifyLoadOutcome]
  | response code body =>
    by_cases hc : code = 200
    · subst hc
      cases hp : parse body with
      | none => simp [classifyLoadOutcome, hp]
      | some resp =>
        by_cases hs : resp.Status = "Success"
        · simp [classifyLoadOutcome, hp, hs]
        · simp [classifyLoadOutcome, hp, hs]
    · simp [classifyLoadOutcome, hc]

/-- C1 — a submit call returns success iff the load engine answered
HTTP 200 with a body that parses as a `StreamLoadResponse` whose `Status`
is `"Success"`; transport errors, non-200 codes, unparseable 200 bodies
and parsed non-`"Success"` statuses all yield an error.  Stated for the
first variant's `writeToDoris` and the gin variant's `WriteToDoris`. -/
theorem c1_submit_success_iff (cfg : Config) (dc : DorisClient) (label : String)
    (data : List Nat) (net : Request → HttpOutcome)
    (parse : String → Option StreamLoadResponse) :
    (writeToDoris cfg label data net parse = .ok () ↔
      ∃ body resp, net (buildStreamLoadRequest cfg label data) = .response 200 body ∧
        parse body = some resp ∧ resp.Status = "Success") ∧
    (WriteToDoris dc label data net parse = .ok () ↔
      ∃ body resp, net (buildStreamLoadRequestV2 dc label data) = .response 200 body ∧
        parse body = some resp ∧ resp.Status = "Success") :=
  ⟨classifyLoadOutcome_ok_iff parse _, classifyLoadOutcome_ok_iff parse _⟩

/-- Helper fact: `maxRedirects` is the literal 10. -/
theorem maxRedirects_eq : maxRedirects = 10 := rfl

/-- While the chain stays within the bound, every redirect is followed. -/
theorem followRedirects_ok_of_le (n : Nat) : ∀ sent, sent + n ≤ maxRedirects →
    followRedirects n sent = .ok (sent + n) := by
  induction n with
  | zero => intro sent h; simp [followRedirects]
  | succ m ih =>
    intro sent h
    have hlt : sent < maxRedirects := by rw [maxRedirects_eq] at h ⊢; omega
    have hc : checkRedirect (List.replicate sent dummyRequest) = .ok () := by
      simp only [checkRedirect, List.length_replicate]
      rw [if_neg (Nat.not_le.mpr hlt)]
    simp only [followRedirects, hc]
    rw [ih (sent + 1) (by rw [maxRedirects_eq] at h ⊢; omega)]
    congr 1
    omega

/-- Once the chain has reached the bound, the policy aborts it with the
transport error. -/
theorem followRedirects_error_of_gt (n : Nat) : ∀ sent, sent ≤ maxRedirects →
    maxRedirects < sent + n →
    followRedirects n sent = .error "重定向次数过多" := by
  induction n with
  | zero => intro sent h1 h2; rw [maxRedirects_eq] at h1 h2; omega
  | succ m ih =>
    intro sent h1 h2
    by_cases hs : sent < maxRedirects
    · have hc : checkRedirect (List.replicate sent dummyRequest) = .ok () := by
        simp only [checkRedirect, List.length_replicate]
        rw [if_neg (Nat.not_le.mpr hs)]
      simp only [followRedirects, hc]
      exact ih (sent + 1) (by rw [maxRedirects_eq] at hs ⊢; omega)
        (by rw [maxRedirects_eq] at h2 ⊢; omega)
    · have hc : checkRedirect (List.replicate sent dummyRequest)
          = .error "重定向次数过多" := by
        simp only [checkRedirect, List.length_replicate]
        rw [if_pos (Nat.le_of_not_lt hs)]
      simp [followRedirects, hc]

/-- C6 — the redirect policy's bound is the fixed `maxRedirects = 10`:
`checkRedirect` admits a chain exactly while fewer than 10 requests were
made, a submission whose server issues fewer than 10 redirects follows
them all, and a chain reaching or exceeding the bound makes the
submission fail with the policy's transport error instead of silently
succeeding on a partial chain. -/
theorem c6_redirect_bound (n : Nat) :
    (checkRedirect (List.replicate n dummyRequest) = .ok () ↔ n < maxRedirects) ∧
    (n < maxRedirects → doRequestChain n = .ok (n + 1)) ∧
    (maxRedirects ≤ n → doRequestChain n = .error "重定向次数过多") := by
  refine ⟨?_, ?_, ?_⟩
  · by_cases h : n < maxRedirects
    · have hle : ¬ (List.replicate n dummyRequest).length ≥ maxRedirects := by
        rw [List.length_replicate]
        exact Nat.not_le.mpr h
      simp [checkRedirect, hle, h]
    · have hge : (List.replicate n dummyRequest).length ≥ maxRedirects := by
        rw [List.length_replicate]
        exact Nat.le_of_not_lt h
      simp [checkRedirect, hge, h]
  · intro h
    have h' := followRedirects_ok_of_le n 1 (by rw [maxRedirects_eq] at h ⊢; omega)
    show followRedirects n 1 = .ok (n + 1)
    rw [h']
    congr 1
    omega
  · intro h
    show followRedirects n 1 = .error "重定向次数过多"
    exact followRedirects_error_of_gt n 1
      (by rw [maxRedirects_eq]; omega)
      (by rw [maxRedirects_eq] at h ⊢; omega)

/-- C6 — witness: a 3-redirect chain is followed to completion (4 requests
sent), a 12-redirect chain fails with the transport error. -/
theorem c6_redirect_bound_witness :
    doRequestChain 3 = .ok 4 ∧ doRequestChain 12 = .error "重定向次数过多" :=
  ⟨(c6_redirect_bound 3).2.1 (by decide), (c6_redirect_bound 12).2.2 (by decide)⟩

/-- C7 — the outbound `label` header is exactly the freshly generated
identifier passed to the call and does not depend on the payload, so two
calls with distinct fresh labels carry distinct `label` headers even on
byte-identical payloads.  Stated for both variants. -/
theorem c7_label_fresh_per_call (cfg : Config) (dc : DorisClient)
    (l1 l2 : String) (d1 d2 : List Nat) :
    headerGet (buildStreamLoadRequest cfg l1 d1).headers "label" = some l1 ∧
    headerGet (buildStreamLoadRequestV2 dc l1 d1).headers "label" = some l1 ∧
    (l1 ≠ l2 →
      headerGet (buildStreamLoadRequest cfg l1 d1).headers "label" ≠
        headerGet (buildStreamLoadRequest cfg l2 d2).headers "label") ∧
    (l1 ≠ l2 →
      headerGet (buildStreamLoadRequestV2 dc l1 d1).headers "label" ≠
        headerGet (buildStreamLoadRequestV2 dc l2 d2).headers "label") := by
  have h1 : ∀ (c : Config) l d,
      headerGet (buildStreamLoadRequest c l d).headers "label" = some l :=
    fun c l d => rfl
  have h2 : ∀ (c : DorisClient) l d,
      headerGet (buildStreamLoadRequestV2 c l d).headers "label" = some l :=
    fun c l d => rfl
  refine ⟨h1 cfg l1 d1, h2 dc l1 d1, fun hne => ?_, fun hne => ?_⟩
  · rw [h1, h1]
    simpa using hne
  · rw [h2, h2]
    simpa using hne

/-- C7 — witness: two concrete calls with distinct fresh labels on the
same payload produce distinct outbound `label` headers. -/
theorem c7_label_fresh_witness :
    headerGet (buildStreamLoadRequest
        { BEHTTP := "http://be:8040", DB := "video", User := "devops", Passwd := "pw" }
        "3f1c0a52-aaaa-bbbb-cccc-000000000001" (strBytes "x")).headers "label" ≠
      headerGet (buildStreamLoadRequest
        { BEHTTP := "http://be:8040", DB := "video", User := "devops", Passwd := "pw" }
        "3f1c0a52-aaaa-bbbb-cccc-000000000002" (strBytes "x")).headers "label" :=
  (c7_label_fresh_per_call
    { BEHTTP := "http://be:8040", DB := "video", User := "devops", Passwd := "pw" }
    (NewDorisClient { BEHTTP := "http://be:8040", DB := "video", User := "devops", Passwd := "pw" })
    "3f1c0a52-aaaa-bbbb-cccc-000000000001" "3f1c0a52-aaaa-bbbb-cccc-000000000002"
    (strBytes "x") (strBytes "x")).2.2.1 (by decide)

/-- C5 — every outbound submission is an HTTP PUT to
`{BEHTTP}/api/{DB}/video_metrics/_stream_load` carrying basic
authentication, `Content-Type: application/json`, `Expect: 100-continue`,
the fresh label, `format: json`, `read_json_by_line: true`, a `columns`
header listing the record fields in struct order, and `ContentLength`
equal to the byte length of the body; both variants build this request
and hand exactly it to the transport. -/
theorem c5_outbound_request_shape (cfg : Config) (label : String) (data : List Nat) :
    (buildStreamLoadRequest cfg label data).method = "PUT" ∧
    (buildStreamLoadRequest cfg label data).url
      = cfg.BEHTTP ++ "/api/" ++ cfg.DB ++ "/" ++ "video_metrics" ++ "/_stream_load" ∧
    headerGet (buildStreamLoadRequest cfg label data).headers "Authorization"
      = some ("Basic " ++ base64Encode (strBytes (cfg.User ++ ":" ++ cfg.Passwd))) ∧
    headerGet (buildStreamLoadRequest cfg label data).headers "Content-Type"
      = some "application/json" ∧
    headerGet (buildStreamLoadRequest cfg label data).headers "Expect"
      = some "100-continue" ∧
    headerGet (buildStreamLoadRequest cfg label data).headers "label" = some label ∧
    headerGet (buildStreamLoadRequest cfg label data).headers "format" = some "json" ∧
    headerGet (buildStreamLoadRequest cfg label data).headers "read_json_by_line"
      = some "true" ∧
    headerGet (buildStreamLoadRequest cfg label data).headers "columns"
      = some "project,event,user_agent" ∧
    (buildStreamLoadRequest cfg label data).contentLength = data.length ∧
    (buildStreamLoadRequest cfg label data).body = data ∧
    (∀ net parse, writeToDoris cfg label data net parse
      = classifyLoadOutcome parse (net (buildStreamLoadRequest cfg label data))) ∧
    (buildStreamLoadRequestV2 (NewDorisClient cfg) label data).method = "PUT" ∧
    (buildStreamLoadRequestV2 (NewDorisClient cfg) label data).url
      = (buildStreamLoadRequest cfg label data).url ∧
    headerGet (buildStreamLoadRequestV2 (NewDorisClient cfg) label data).headers
        "Authorization"
      = headerGet (buildStreamLoadRequest cfg label data).headers "Authorization" ∧
    headerGet (buildStreamLoadRequestV2 (NewDorisClient cfg) label data).headers "columns"
      = some "project,event,user_agent,event_time" ∧
    (buildStreamLoadRequestV2 (NewDorisClient cfg) label data).contentLength
      = data.length ∧
    (∀ net parse, WriteToDoris (NewDorisClient cfg) label data net parse
      = classifyLoadOutcome parse
          (net (buildStreamLoadRequestV2 (NewDorisClient cfg) label data))) := by
  have hh : (buildStreamLoadRequest cfg label data).headers =
      [("Authorization", "Basic " ++ base64Encode (strBytes (cfg.User ++ ":" ++ cfg.Passwd))),
       ("Content-Type", "application/json"), ("Expect", "100-continue"),
       ("label", label), ("format", "json"), ("read_json_by_line", "true"),
       ("columns", "project,event,user_agent")] := by
    simp [buildStreamLoadRequest, setHeader]
  have hh2 : (buildStreamLoadRequestV2 (NewDorisClient cfg) label data).headers =
      [("Authorization", "Basic " ++ base64Encode (strBytes (cfg.User ++ ":" ++ cfg.Passwd))),
       ("Content-Type", "application/json"), ("Expect", "100-continue"),
       ("label", label), ("format", "json"), ("read_json_by_line", "true"),
       ("columns", "project,event,user_agent,event_time")] := by
    simp [buildStreamLoadRequestV2, NewDorisClient, setHeader]
  refine ⟨rfl, rfl, ?_, ?_, ?_, ?_, ?_, ?_, ?_, rfl, rfl, fun _ _ => rfl,
    rfl, rfl, ?_, ?_, rfl, fun _ _ => rfl⟩ <;>
    simp [hh, hh2, headerGet]

/-- C2 — on a valid request (non-empty `project` and `event`) the record
submitted to the load client carries `user_agent` equal to the request's
`userAgent` (the empty string when not supplied), is stamped with
`event_time` formatted from the handling-time clock in
`YYYY-MM-DD HH:MM:SS` shape, and is serialized as a single
newline-terminated JSON line; the first variant's `toVideoData` likewise
preserves `userAgent`. -/
theorem c2_load_record_user_agent_and_time (req : VideoRequest) (now : GoTime)
    (res : Except String Unit) (hp : req.project ≠ "") (he : req.event ≠ "") :
    (toVideoData req).userAgent = req.userAgent ∧
    (videoHandlerV2 now (some req) res).submitted
      = some (marshalVideoData
          { project := req.project, event := req.event,
            userAgent := req.userAgent, eventTime := formatDateTime now } ++ "\n") ∧
    isWellFormedTimestamp (formatDateTime now) = true := by
  refine ⟨rfl, ?_, formatDateTime_wellFormed now⟩
  cases res <;> simp [videoHandlerV2, shouldBindJSON, hp, he]

/-- C2 — witness: a concrete valid request is submitted as a single
newline-terminated line carrying the supplied user agent and the stamped
well-formed timestamp. -/
theorem c2_load_record_witness :
    (videoHandlerV2 ⟨2026, 10, 11, 12, 30, 5⟩
        (some { project := "app1", event := "play", userAgent := "UA" })
        (.ok ())).submitted
      = some (marshalVideoData
          { project := "app1", event := "play", userAgent := "UA",
            eventTime := formatDateTime ⟨2026, 10, 11, 12, 30, 5⟩ } ++ "\n") ∧
    isWellFormedTimestamp (formatDateTime ⟨2026, 10, 11, 12, 30, 5⟩) = true := by
  have h := c2_load_record_user_agent_and_time
    { project := "app1", event := "play", userAgent := "UA" }
    ⟨2026, 10, 11, 12, 30, 5⟩ (.ok ()) (by decide) (by decide)
  exact ⟨h.2.1, h.2.2⟩

/-- C3 — a decoded request with an empty `project` or an empty `event`
is answered 400 and nothing is submitted to the load client, in both
variants' handlers. -/
theorem c3_empty_required_fields_400 (req : VideoRequest) (res : Except String Unit)
    (now : GoTime) (h : req.project = "" ∨ req.event = "") :
    videoHandlerV1 (some req) res = { status := 400, submitted := none } ∧
    videoHandlerV2 now (some req) res = { status := 400, submitted := none } := by
  constructor
  · simp only [videoHandlerV1]
    rw [if_pos h]
  · rcases h with h | h
    · simp [videoHandlerV2, shouldBindJSON, h]
    · by_cases hp : req.project = ""
      · simp [videoHandlerV2, shouldBindJSON, hp]
      · simp [videoHandlerV2, shouldBindJSON, hp, h]

/-- C3 — witness: an empty `project` with a healthy load client still
yields 400 and no submission, in both variants. -/
theorem c3_empty_fields_witness :
    videoHandlerV1 (some { project := "", event := "play", userAgent := "UA" }) (.ok ())
      = { status := 400, submitted := none } ∧
    videoHandlerV2 ⟨2026, 1, 2, 3, 4, 5⟩
        (some { project := "", event := "play", userAgent := "UA" }) (.ok ())
      = { status := 400, submitted := none } :=
  c3_empty_required_fields_400
    { project := "", event := "play", userAgent := "UA" } (.ok ())
    ⟨2026, 1, 2, 3, 4, 5⟩ (Or.inl rfl)

/-- C4 — on the `/video` route, a non-preflight request with a method
other than POST is answered 405, a POST with a content type other than
`application/json` is answered 415, and a POST whose body fails JSON
validation is answered 400 — in every case with nothing submitted to the
load client, whatever the decoder and the load client would do. -/
theorem c4_validation_gate (jsonValid : String → Bool)
    (decode : String → Option VideoRequest) (res : Except String Unit)
    (r : HttpRequest) (hopt : r.method ≠ "OPTIONS") :
    (r.method ≠ "POST" →
      videoRoute jsonValid decode res r = { status := 405, submitted := none }) ∧
    (r.method = "POST" → r.contentType ≠ "application/json" →
      videoRoute jsonValid decode res r = { status := 415, submitted := none }) ∧
    (r.method = "POST" → r.contentType = "application/json" →
      jsonValid r.body = false →
      videoRoute jsonValid decode res r = { status := 400, submitted := none }) := by
  refine ⟨?_, ?_, ?_⟩
  · intro hm
    simp [videoRoute, corsMiddleware, validateRequest, hopt, hm]
  · intro hm hct
    simp [videoRoute, corsMiddleware, validateRequest, hopt, hm, hct]
  · intro hm hct hjv
    simp [videoRoute, corsMiddleware, validateRequest, hopt, hm, hct, hjv]

/-- C4 — witness: a GET, a non-JSON POST, and a POST with an invalid
body take the 405, 415 and 400 gates without touching the load client. -/
theorem c4_validation_gate_witness :
    videoRoute (fun _ => true) (fun _ => none) (.ok ())
        { method := "GET", contentType := "application/json", body := "1" }
      = { status := 405, submitted := none } ∧
    videoRoute (fun _ => true) (fun _ => none) (.ok ())
        { method := "POST", contentType := "text/plain", body := "1" }
      = { status := 415, submitted := none } ∧
    videoRoute (fun _ => false) (fun _ => none) (.ok ())
        { method := "POST", contentType := "application/json", body := "not json" }
      = { status := 400, submitted := none } :=
  ⟨(c4_validation_gate (fun _ => true) (fun _ => none) (.ok ())
      { method := "GET", contentType := "application/json", body := "1" }
      (by decide)).1 (by decide),
   (c4_validation_gate (fun _ => true) (fun _ => none) (.ok ())
      { method := "POST", contentType := "text/plain", body := "1" }
      (by decide)).2.1 rfl (by decide),
   (c4_validation_gate (fun _ => false) (fun _ => none) (.ok ())
      { method := "POST", contentType := "application/json", body := "not json" }
      (by decide)).2.2 rfl rfl rfl⟩

/-- The `Access-Control-Allow-Origin` value `setCORSHeaders` ends up
exposing, as a function of the policy branches. -/
theorem setCORSHeaders_allowOrigin (env : String → Option String) (origin : String) :
    headerGet (setCORSHeaders env origin) "Access-Control-Allow-Origin"
      = (if getEnv env "CORS_ALLOW_CREDENTIALS" "false" = "true" then
           if getEnv env "CORS_ALLOWED_ORIGIN" "*" = "*" then
             if origin ≠ "" then some origin else none
           else if origin = getEnv env "CORS_ALLOWED_ORIGIN" "*" then
             some (getEnv env "CORS_ALLOWED_ORIGIN" "*")
           else none
         else if getEnv env "CORS_ALLOWED_ORIGIN" "*" = "*"
             ∨ origin = getEnv env "CORS_ALLOWED_ORIGIN" "*" then
           some (getEnv env "CORS_ALLOWED_ORIGIN" "*")
         else none) := by
  by_cases hc : getEnv env "CORS_ALLOW_CREDENTIALS" "false" = "true" <;>
  by_cases ha : getEnv env "CORS_ALLOWED_ORIGIN" "*" = "*" <;>
  by_cases ho : origin = "" <;>
  by_cases hoa : origin = getEnv env "CORS_ALLOWED_ORIGIN" "*" <;>
    simp [setCORSHeaders, setHeader, headerGet, hc, ha, ho, hoa] <;>
    split <;> simp [List.find?]

/-- A `getEnv` call whose default is `"*"` never yields the empty
string. -/
theorem getEnv_star_ne_empty (env : String → Option String) (k : String) :
    getEnv env k "*" ≠ "" := by
  unfold getEnv
  by_cases h : osGetenv env k ≠ "" <;> simp [h]

/-- C8 — counterexample.  The claim says that with credentials allowed
the `Access-Control-Allow-Origin` header is never the literal `"*"`, for
every request; but a request carrying the header `Origin: *` under the
wildcard configuration gets exactly `"*"` echoed. -/
theorem c8_wildcard_origin_counterexample :
    getEnv credEnv "CORS_ALLOW_CREDENTIALS" "false" = "true" ∧
    getEnv credEnv "CORS_ALLOWED_ORIGIN" "*" = "*" ∧
    headerGet (setCORSHeaders credEnv "*") "Access-Control-Allow-Origin"
      = some "*" := ⟨rfl, rfl, rfl⟩

/-- C8 (amended) — with credentials allowed, the configured wildcard is
never echoed verbatim: whenever the request's `Origin` is not itself the
literal `"*"`, the allow-origin header differs from `"*"`; under the
wildcard configuration the specific requesting origin is echoed instead,
and no allow-origin header is set when the request carries no origin. -/
theorem c8_no_wildcard_echo_with_credentials (env : String → Option String)
    (origin : String)
    (hcred : getEnv env "CORS_ALLOW_CREDENTIALS" "false" = "true") :
    (origin ≠ "*" →
      headerGet (setCORSHeaders env origin) "Access-Control-Allow-Origin"
        ≠ some "*") ∧
    (getEnv env "CORS_ALLOWED_ORIGIN" "*" = "*" → origin ≠ "" →
      headerGet (setCORSHeaders env origin) "Access-Control-Allow-Origin"
        = some origin) ∧
    (origin = "" →
      headerGet (setCORSHeaders env origin) "Access-Control-Allow-Origin"
        = none) := by
  have hO := setCORSHeaders_allowOrigin env origin
  simp only [hcred, if_pos rfl] at hO
  refine ⟨?_, ?_, ?_⟩
  · intro hstar
    rw [hO]
    by_cases ha : getEnv env "CORS_ALLOWED_ORIGIN" "*" = "*"
    · by_cases ho : origin = "" <;> simp [ha, ho, hstar]
    · by_cases hoa : origin = getEnv env "CORS_ALLOWED_ORIGIN" "*" <;>
        simp [ha, hoa]
  · intro ha ho
    rw [hO]
    simp [ha, ho]
  · intro ho
    rw [hO]
    by_cases ha : getEnv env "CORS_ALLOWED_ORIGIN" "*" = "*"
    · simp [ha, ho]
    · have hne : origin ≠ getEnv env "CORS_ALLOWED_ORIGIN" "*" := by
        rw [ho]
        exact (getEnv_star_ne_empty env "CORS_ALLOWED_ORIGIN").symm
      simp [ha, hne]

/-- C8 — witness: under the credentialed wildcard configuration a
concrete requesting origin is echoed back as-is, and a request with no
`Origin` header gets no allow-origin header. -/
theorem c8_no_wildcard_echo_witness :
    headerGet (setCORSHeaders credEnv "https://example.com")
        "Access-Control-Allow-Origin" = some "https://example.com" ∧
    headerGet (setCORSHeaders credEnv "") "Access-Control-Allow-Origin" = none :=
  ⟨(c8_no_wildcard_echo_with_credentials credEnv "https://example.com" rfl).2.1
      rfl (by decide),
   (c8_no_wildcard_echo_with_credentials credEnv "" rfl).2.2 rfl⟩

end DorisWebhook
